import Mathlib

/-!
Verification of the VirtualBox driver (`VBox42Driver`): the command executor
`VBoxManageWithOutput`, the version resolver `Version`, the version-gated
`CreateSATAController` command builder, the running-state query `IsRunning`,
and the snapshot-tree parser `LoadSnapshots`, embedded shallowly.

Strings are manipulated through their character lists so that every
definition evaluates inside the kernel.  The external subprocess world is a
function from an argument list to a captured `RunOutcome`.  Go panics
(explicit `panic(...)` calls as well as runtime nil-dereference /
out-of-range aborts) are modelled as distinguished error values so that
theorems can talk about them; everything else follows the Go source line by
line.
-/

/-- Character class of Go `unicode.IsSpace`, the set trimmed by
`strings.TrimSpace`. -/
def goIsSpace (c : Char) : Bool :=
  c = ' ' || c = '\t' || c = '\n' || c = '\x0b' || c = '\x0c' || c = '\r' ||
  c = '\u0085' || c = '\u00a0' || c = '\u1680' ||
  ('\u2000' ≤ c && c ≤ '\u200a') ||
  c = '\u2028' || c = '\u2029' || c = '\u202f' || c = '\u205f' || c = '\u3000'

/-- Drop the longest suffix of `l` whose characters satisfy `p`. -/
def dropTrailing (p : Char → Bool) (l : List Char) : List Char :=
  (l.reverse.dropWhile p).reverse

/-- Go `strings.TrimSpace`. -/
def trimSpace (s : String) : String :=
  String.mk (dropTrailing goIsSpace (s.data.dropWhile goIsSpace))

/-- Go `strings.Count(s, "-")` for the one-character pattern used by the
snapshot parser: the number of dash characters in `s`. -/
def countDashes (s : String) : Nat := s.data.count '-'

/-- Go `strings.Contains(s, sub)`. -/
def goContains (s sub : String) : Bool := decide (List.IsInfix sub.data s.data)

/-- Go `strings.HasPrefix(s, pre)`. -/
def goHasPre (pre s : String) : Bool := pre.data.isPrefixOf s.data

/-- Go `strings.Split` on a one-character separator. -/
def splitOnChar (sep : Char) : List Char → List (List Char)
  | [] => [[]]
  | c :: rest =>
    match splitOnChar sep rest with
    | [] => [[]]
    | h :: t => if c = sep then [] :: h :: t else (c :: h) :: t

/-- Go `strings.Split(s, "\n")`. -/
def goSplitNL (s : String) : List String := (splitOnChar '\n' s.data).map String.mk

/-- One token of `bufio.ScanLines`: a single trailing carriage return is
dropped from the line. -/
def dropOneCR (l : List Char) : List Char :=
  match l.getLast? with
  | some c => if c = '\x0d' then l.dropLast else l
  | none => l

/-- A `bufio.Scanner` with `ScanLines` run over a whole string:
newline-separated tokens, one trailing carriage return stripped per token,
and no empty final token when the input ends in a newline (or is empty). -/
def goScanLines (s : String) : List String :=
  let parts := splitOnChar '\n' s.data
  let parts2 :=
    match parts.getLast? with
    | some [] => parts.dropLast
    | _ => parts
  parts2.map (fun l => String.mk (dropOneCR l))

/-- Go `strings.TrimRight(s, "\r")`: drop every trailing carriage return. -/
def goTrimRightCR (s : String) : String :=
  String.mk (dropTrailing (fun c => c = '\x0d') s.data)

/-- The character class `[.a-z]` of the error-banner pattern. -/
def bannerChar (c : Char) : Bool := c = '.' || ('a' ≤ c && c ≤ 'z')

/-- After the literal `VBoxManage`, the banner pattern needs one or more
`[.a-z]` characters followed by the literal `: error:`. -/
def bannerTail : List Char → Bool
  | [] => false
  | c :: rest => bannerChar c && (": error:".data.isPrefixOf rest || bannerTail rest)

/-- Unanchored search for the pattern, position by position. -/
def bannerSearchL : List Char → Bool
  | [] => false
  | c :: rest =>
    ("VBoxManage".data.isPrefixOf (c :: rest) && bannerTail ((c :: rest).drop 10)) ||
      bannerSearchL rest

/-- Go `regexp.MatchString("VBoxManage([.a-z]+?): error:", s)` (driver line
205).  Laziness of `+?` is irrelevant to whether a match exists. -/
def bannerMatch (s : String) : Bool := bannerSearchL s.data

/-- How `exec.Cmd.Run` ended: clean exit, non-zero exit (`*exec.ExitError`),
or a failure to start the process at all (any other error). -/
inductive ExitKind where
  | success
  | exitErr
  | startErr (msg : String)
deriving DecidableEq

/-- The captured result of one subprocess invocation. -/
structure RunOutcome where
  stdout : String
  stderr : String
  exit : ExitKind
deriving DecidableEq

/-- The error values `VBoxManageWithOutput` returns: the reformatted
`VBoxManage error: <stderr>` error or the untouched process-start error. -/
inductive GoErr where
  | vboxError (msg : String)
  | startError (msg : String)
deriving DecidableEq

/-- `VBoxManageWithOutput` (driver lines 186-215): trim both captured
streams; replace a non-zero-exit error by `VBoxManage error: <stderr>`;
keep a failure-to-start error as it is; and only on a nil error (zero exit)
reclassify as a failure when the trimmed stderr matches the error banner. -/
def vboxManageWithOutput (r : RunOutcome) : String × Option GoErr :=
  match r.exit with
  | ExitKind.exitErr =>
    (trimSpace r.stdout, some (GoErr.vboxError ("VBoxManage error: " ++ trimSpace r.stderr)))
  | ExitKind.startErr msg => (trimSpace r.stdout, some (GoErr.startError msg))
  | ExitKind.success =>
    if bannerMatch (trimSpace r.stderr) then
      (trimSpace r.stdout, some (GoErr.vboxError ("VBoxManage error: " ++ trimSpace r.stderr)))
    else (trimSpace r.stdout, none)

/-- `VBoxManage` (driver lines 181-184): the output is discarded. -/
def vboxManage (world : List String → RunOutcome) (args : List String) : Option GoErr :=
  (vboxManageWithOutput (world args)).2

/-- Errors of `Version` (driver lines 221-248). -/
inductive VersionErr where
  | setup (msg : String)
  | parseFailed (msg : String)
deriving DecidableEq

/-- The character class `[.0-9]` of the version pattern. -/
def isVerChar (c : Char) : Bool := c = '.' || ('0' ≤ c && c ≤ '9')

/-- `Version` applied to the captured `--version` stdout (driver lines
230-247): trim, reject on a `vboxdrv` marker, then match
`^([.0-9]+)(?:_(?:RC|OSEr)[0-9]+)?`.  The anchored greedy group is exactly
the maximal leading run of `[.0-9]` characters, and the optional release-tag
group never changes the captured group. -/
def versionFromOutput (stdout : String) : Except VersionErr String :=
  let versionOutput := trimSpace stdout
  if goContains versionOutput "vboxdrv" then
    Except.error (VersionErr.setup ("VirtualBox is not properly setup: " ++ versionOutput))
  else
    match versionOutput.data.takeWhile isVerChar with
    | [] => Except.error (VersionErr.parseFailed ("No version found: " ++ versionOutput))
    | c :: cs => Except.ok (String.mk (c :: cs))

/-- Numeric value of a list of decimal digits. -/
def digitsToNat (l : List Char) : Nat :=
  l.foldl (fun a c => a * 10 + (c.toNat - '0'.toNat)) 0

/-- `hashicorp/go-version` `NewVersion` on the dotted-numeric strings the
version resolver produces (the library is a dependency, not part of this
repository): parse succeeds exactly when every dot-separated segment is a
non-empty digit run, and yields the numeric segments. -/
def goVersionParse (s : String) : Option (List Nat) :=
  let parts := splitOnChar '.' s.data
  if parts.all (fun p => !p.isEmpty && p.all Char.isDigit) then
    some (parts.map digitsToNat)
  else none

/-- Right-pad a segment list with zeros to length `n`. -/
def padTo (n : Nat) (l : List Nat) : List Nat := l ++ List.replicate (n - l.length) 0

/-- Lexicographic strict order on equal-length segment lists. -/
def lexLT : List Nat → List Nat → Bool
  | [], _ => false
  | _ :: _, [] => false
  | a :: as, b :: bs => if a < b then true else if b < a then false else lexLT as bs

/-- `hashicorp/go-version` `LessThan` on numeric versions: segment-by-segment
comparison with the shorter side padded by zeros. -/
def versionSegLT (a b : List Nat) : Bool :=
  lexLT (padTo (max a.length b.length) a) (padTo (max a.length b.length) b)

/-- `CreateSATAController` (driver lines 25-54) given the already-resolved
version string: parse it and the threshold `"4.3"`, pick `--sataportcount`
below 4.3 and `--portcount` otherwise, and build the `storagectl` command. -/
def createSATAControllerArgs (version vmName name : String) (portcount : Int) :
    Except String (List String) :=
  match goVersionParse version with
  | none => Except.error ("Malformed version: " ++ version)
  | some currentVersion =>
    match goVersionParse "4.3" with
    | none => Except.error ("Malformed version: " ++ "4.3")
    | some firstVersionUsingPortCount =>
      Except.ok
        ["storagectl", vmName, "--name", name, "--add", "sata",
         (if versionSegLT currentVersion firstVersionUsingPortCount then "--sataportcount"
          else "--portcount"),
         toString portcount]

/-- The scanning loop of `IsRunning` (driver lines 129-150): split the raw
stdout on newlines, trim trailing carriage returns, and look for one of the
three exact `VMState` lines. -/
def isRunningOutput (stdout : String) : Bool :=
  (goSplitNL stdout).any (fun line =>
    decide (goTrimRightCR line = "VMState=\"running\"") ||
    decide (goTrimRightCR line = "VMState=\"stopping\"") ||
    decide (goTrimRightCR line = "VMState=\"paused\""))

/-- `IsRunning` (driver lines 120-151): run `showvminfo` and scan; a failed
run returns the error (`none` here). -/
def isRunning (world : List String → RunOutcome) (name : String) : Option Bool :=
  match (world ["showvminfo", name, "--machinereadable"]).exit with
  | ExitKind.success => some (isRunningOutput (world ["showvminfo", name, "--machinereadable"]).stdout)
  | _ => none

/-- One snapshot node (`VBoxSnapshot`).  Children hold node ids: an id is an
index into the parse state's node store, standing for a Go pointer. -/
structure GoNode where
  Name : String := ""
  UUID : String := ""
  IsCurrent : Bool := false
  Children : List Nat := []
deriving DecidableEq

/-- The runtime aborts the `LoadSnapshots` loop can hit: dereferencing the
nil `node` pointer (on a `Current...` or UUID record before any node
exists), indexing the nil regexp match (line 279), and the interface
conversion of a `Peek` on an empty stack (line 301). -/
inductive SnapPanic where
  | nilNodeCurrent
  | nilNodeUUID
  | nilMatchIndex
  | nilParentAssert
deriving DecidableEq

/-- The mutable state of the `LoadSnapshots` loop (driver lines 262-314):
the node store, `rootNode`, `currentIndicator`, the ancestor stack (head is
the top; entries are possibly-nil node pointers) and the `node` pointer. -/
structure PState where
  nodes : List GoNode
  rootNode : Option Nat
  currentIndicator : String
  parentStack : List (Option Nat)
  node : Option Nat
deriving DecidableEq

/-- The initial loop state. -/
def snapInit : PState :=
  { nodes := [], rootNode := none, currentIndicator := "", parentStack := [], node := none }

/-- Whether `strings.Index(txt, "=") > 0`: the line contains `=`, and not as
its first character. -/
def idxGtZero (txt : String) : Bool :=
  match txt.data with
  | [] => false
  | c :: rest => if c = '=' then false else rest.contains '='

/-- The four submatches of the snapshot-record pattern
`Snapshot(?P<Type>Name|UUID)(?P<Path>(-[1-9]+)*)="(?P<Value>[^"]*)"`:
`matches[1]` (the kind), `matches[2]` (the whole path), `matches[3]` (the
last path segment) and `matches[4]` (the quoted value). -/
structure RegexMatch where
  kind : String
  path : String
  leaf : String
  value : String
deriving DecidableEq

/-- The digit class `[1-9]`. -/
def digit19 (c : Char) : Bool := '1' ≤ c && c ≤ '9'

/-- Greedy parse of `(-[1-9]+)*`: the repetitions matched and the remaining
input.  Fuel is the input length.  No shorter parse can be followed by the
mandatory `="`, so greedy parsing is exactly the regexp's behaviour. -/
def parseReps : Nat → List Char → List (List Char) × List Char
  | 0, l => ([], l)
  | Nat.succ fuel, l =>
    match l with
    | '-' :: rest =>
      let ds := rest.takeWhile digit19
      if ds.isEmpty then ([], l)
      else
        let pr := parseReps fuel (rest.dropWhile digit19)
        (('-' :: ds) :: pr.1, pr.2)
    | _ => ([], l)

/-- Try the snapshot-record pattern anchored at the head of `l`. -/
def matchAt (l : List Char) : Option RegexMatch :=
  if "Snapshot".data.isPrefixOf l then
    let r1 := l.drop 8
    let k : Option (String × List Char) :=
      if "Name".data.isPrefixOf r1 then some ("Name", r1.drop 4)
      else if "UUID".data.isPrefixOf r1 then some ("UUID", r1.drop 4)
      else none
    match k with
    | none => none
    | some kr =>
      let pr := parseReps kr.2.length kr.2
      match pr.2 with
      | '=' :: '\x22' :: r4 =>
        let v := r4.takeWhile (fun c => decide (c ≠ '\x22'))
        match r4.dropWhile (fun c => decide (c ≠ '\x22')) with
        | '\x22' :: _ =>
          some { kind := kr.1, path := String.mk pr.1.flatten,
                 leaf := String.mk (pr.1.getLastD []), value := String.mk v }
        | _ => none
      | _ => none
  else none

/-- Go `FindStringSubmatch` of the snapshot-record pattern: the leftmost
position where the pattern matches (line 276). -/
def regexSearch : List Char → Option RegexMatch
  | [] => none
  | c :: rest =>
    match matchAt (c :: rest) with
    | some m => some m
    | none => regexSearch rest

/-- Iterated `stack.Pop`: popping an empty stack is a no-op, as in the
`golang-collections` stack. -/
def popN : Nat → List (Option Nat) → List (Option Nat)
  | 0, l => l
  | Nat.succ k, l => popN k l.tail

/-- Replace the node at index `p` (a no-op out of range; node ids produced
by the parser are always in range). -/
def listUpd : List GoNode → Nat → (GoNode → GoNode) → List GoNode
  | [], _, _ => []
  | n :: rest, 0, f => f n :: rest
  | n :: rest, Nat.succ q, f => n :: listUpd rest q f

/-- The `Children` list of the node with id `p`. -/
def childrenAt (ns : List GoNode) (p : Nat) : List Nat :=
  ((ns.get? p).map GoNode.Children).getD []

/-- The ancestor-stack adjustment of driver lines 290-299: push the current
node on a depth increase, pop `pathLenCur - 1` entries on a depth decrease,
leave the stack alone on equal depth. -/
def adjStack (ind : String) (stk : List (Option Nat)) (node : Option Nat) (path : String) :
    List (Option Nat) :=
  if countDashes ind < countDashes path then node :: stk
  else if countDashes path < countDashes ind then popN (countDashes ind - 1) stk
  else stk

/-- `currentIndicator` after a non-root Name record: it is assigned the
record's path only in the depth-increase branch (line 293). -/
def adjIndicator (ind path : String) : String :=
  if countDashes ind < countDashes path then path else ind

/-- Processing of a Name record (driver lines 284-306): create the root, or
adjust the stack, create a node, and append it to the children of the stack
top (a `Peek` of an empty stack is the nil interface-conversion panic; a nil
parent pointer skips the append). -/
def nameStep (st : PState) (path value : String) : Except SnapPanic PState :=
  match st.rootNode with
  | none =>
    Except.ok
      { nodes := st.nodes ++ [{ Name := value }], rootNode := some st.nodes.length,
        currentIndicator := path, parentStack := st.parentStack,
        node := some st.nodes.length }
  | some _ =>
    match adjStack st.currentIndicator st.parentStack st.node path with
    | [] => Except.error SnapPanic.nilParentAssert
    | parent :: rest =>
      let nid := st.nodes.length
      let ns := st.nodes ++ [{ Name := value }]
      let ns2 :=
        match parent with
        | some p => listUpd ns p (fun n => { n with Children := n.Children ++ [nid] })
        | none => ns
      Except.ok
        { nodes := ns2, rootNode := st.rootNode,
          currentIndicator := adjIndicator st.currentIndicator path,
          parentStack := parent :: rest, node := some nid }

/-- One iteration of the `LoadSnapshots` scanner loop (driver lines
269-314) on the line `txt`. -/
def stepLine (st : PState) (txt : String) : Except SnapPanic PState :=
  if idxGtZero txt then
    if goHasPre "Current" txt then
      match st.node with
      | none => Except.error SnapPanic.nilNodeCurrent
      | some i =>
        Except.ok { st with nodes := listUpd st.nodes i (fun n => { n with IsCurrent := true }) }
    else
      match regexSearch txt.data with
      | none => Except.error SnapPanic.nilMatchIndex
      | some m =>
        if m.kind = "Name" then nameStep st m.path m.value
        else if m.kind = "UUID" then
          match st.node with
          | none => Except.error SnapPanic.nilNodeUUID
          | some i =>
            Except.ok { st with nodes := listUpd st.nodes i (fun n => { n with UUID := m.value }) }
        else Except.ok st
  else Except.ok st

/-- The scanner loop over a list of lines. -/
def runLines (lines : List String) : Except SnapPanic PState :=
  lines.foldlM stepLine snapInit

/-- The sentinel listing content (driver line 263). -/
def sentinelNoSnapshots : String := "This machine does not have any snapshots"

/-- The parsing part of `LoadSnapshots` (driver lines 262-317), applied to
the trimmed stdout of the listing command: an absent tree for the sentinel,
otherwise the scanner loop; the result is the root and the node store. -/
def parseSnapshotOutput (stdoutString : String) :
    Except SnapPanic (Option Nat × List GoNode) :=
  if stdoutString = sentinelNoSnapshots then Except.ok (none, [])
  else
    match runLines (goScanLines stdoutString) with
    | Except.error p => Except.error p
    | Except.ok st => Except.ok (st.rootNode, st.nodes)

/-- A Go panic observed by the caller as a process abort: the explicit
`panic("Argument ...")` calls, or a runtime abort inside the parse loop. -/
inductive Abort where
  | explicitPanic (msg : String)
  | runtime (p : SnapPanic)
deriving DecidableEq

/-- What a driver call does from the caller's point of view: a returned
value, a returned error, or an uncatchable abort of the process. -/
inductive Outcome (α : Type) where
  | ok (a : α)
  | err (e : GoErr)
  | panicked (a : Abort)
deriving DecidableEq

/-- `LoadSnapshots` (driver lines 251-318). -/
def loadSnapshots (world : List String → RunOutcome) (vmName : String) :
    Outcome (Option Nat × List GoNode) :=
  if vmName = "" then Outcome.panicked (Abort.explicitPanic "Argument empty exception: vmName")
  else
    match vboxManageWithOutput (world ["snapshot", vmName, "list", "--machinereadable"]) with
    | (_, some e) => Outcome.err e
    | (stdoutString, none) =>
      match parseSnapshotOutput stdoutString with
      | Except.error p => Outcome.panicked (Abort.runtime p)
      | Except.ok res => Outcome.ok res

/-- `CreateSnapshot` (driver lines 320-327). -/
def createSnapshot (world : List String → RunOutcome) (vmname snapshotName : String) :
    Outcome Unit :=
  if vmname = "" then Outcome.panicked (Abort.explicitPanic "Argument empty exception: vmname")
  else
    match vboxManage world ["snapshot", vmname, "take", snapshotName] with
    | none => Outcome.ok ()
    | some e => Outcome.err e

/-- `HasSnapshots` (driver lines 329-340). -/
def hasSnapshots (world : List String → RunOutcome) (vmname : String) : Outcome Bool :=
  if vmname = "" then Outcome.panicked (Abort.explicitPanic "Argument empty exception: vmname")
  else
    match loadSnapshots world vmname with
    | Outcome.ok sn => Outcome.ok (decide (sn.1 ≠ none))
    | Outcome.err e => Outcome.err e
    | Outcome.panicked a => Outcome.panicked a

/-- `GetCurrentSnapshot` (driver lines 342-353).  The `GetCurrentSnapshot`
method of `VBoxSnapshot` lives outside this file's source; it is taken as a
parameter. -/
def getCurrentSnapshot (getCur : Option Nat → List GoNode → Option Nat)
    (world : List String → RunOutcome) (vmname : String) : Outcome (Option Nat) :=
  if vmname = "" then Outcome.panicked (Abort.explicitPanic "Argument empty exception: vmname")
  else
    match loadSnapshots world vmname with
    | Outcome.ok sn => Outcome.ok (getCur sn.1 sn.2)
    | Outcome.err e => Outcome.err e
    | Outcome.panicked a => Outcome.panicked a

/-- `SetSnapshot` (driver lines 355-365).  The snapshot argument is a
possibly-nil pointer. -/
def setSnapshot (world : List String → RunOutcome) (vmname : String) (sn : Option GoNode) :
    Outcome Unit :=
  if vmname = "" then Outcome.panicked (Abort.explicitPanic "Argument empty exception: vmname")
  else
    match sn with
    | none => Outcome.panicked (Abort.explicitPanic "Argument null exception: sn")
    | some s =>
      match vboxManage world ["snapshot", vmname, "restore", s.UUID] with
      | none => Outcome.ok ()
      | some e => Outcome.err e

/-- `DeleteSnapshot` (driver lines 367-376). -/
def deleteSnapshot (world : List String → RunOutcome) (vmname : String) (sn : Option GoNode) :
    Outcome Unit :=
  if vmname = "" then Outcome.panicked (Abort.explicitPanic "Argument empty exception: vmname")
  else
    match sn with
    | none => Outcome.panicked (Abort.explicitPanic "Argument null exception: sn")
    | some s =>
      match vboxManage world ["snapshot", vmname, "delete", s.UUID] with
      | none => Outcome.ok ()
      | some e => Outcome.err e

/-- Every non-nil pointer on the ancestor stack is a valid node id.  Every
state the parser actually reaches satisfies this (Go pointers are always
valid); it is the hypothesis under which child-append facts are stated. -/
def stackValid (st : PState) : Bool :=
  st.parentStack.all (fun q =>
    match q with
    | none => true
    | some p => decide (p < st.nodes.length))

/-- The `node` pointer, when non-nil, is a valid node id. -/
def nodeValid (st : PState) : Bool :=
  match st.node with
  | none => true
  | some i => decide (i < st.nodes.length)

/-! ### Helper lemmas -/

theorem string_data_append (s t : String) : (s ++ t).data = s.data ++ t.data := by
  cases s; cases t; rfl

theorem vbox_success_no_banner (r : RunOutcome) (h : r.exit = ExitKind.success)
    (hb : bannerMatch (trimSpace r.stderr) = false) :
    vboxManageWithOutput r = (trimSpace r.stdout, none) := by
  unfold vboxManageWithOutput
  rw [h, hb]
  simp

theorem popN_suffixMem (q : Option Nat) :
    ∀ (k : Nat) (l : List (Option Nat)), q ∈ popN k l → q ∈ l := by
  intro k
  induction k with
  | zero => intro l h; exact h
  | succ k ih =>
    intro l h
    have : q ∈ l.tail := ih l.tail h
    exact List.mem_of_mem_tail this

theorem listUpd_getElem? (f : GoNode → GoNode) :
    ∀ (ns : List GoNode) (p : Nat), (listUpd ns p f).get? p = (ns.get? p).map f := by
  intro ns
  induction ns with
  | nil => intro p; simp [listUpd]
  | cons n rest ih =>
    intro p
    cases p with
    | zero => simp [listUpd]
    | succ q => simpa [listUpd] using ih q

theorem childrenAt_updChild (ns : List GoNode) (nn : GoNode) (p nid : Nat)
    (h : p < ns.length) :
    childrenAt (listUpd (ns ++ [nn]) p (fun n => { n with Children := n.Children ++ [nid] })) p =
      childrenAt ns p ++ [nid] := by
  obtain ⟨np, hnp⟩ : ∃ np, ns.get? p = some np := ⟨ns.get ⟨p, h⟩, List.get?_eq_get h⟩
  unfold childrenAt
  rw [listUpd_getElem?, List.get?_append h, hnp]
  simp

theorem adjStack_mem (ind : String) (stk : List (Option Nat)) (node : Option Nat)
    (path : String) (q : Option Nat) (h : q ∈ adjStack ind stk node path) :
    q = node ∨ q ∈ stk := by
  unfold adjStack at h
  split at h
  · rcases List.mem_cons.mp h with h1 | h1
    · exact Or.inl h1
    · exact Or.inr h1
  · split at h
    · exact Or.inr (popN_suffixMem q _ _ h)
    · exact Or.inr h

theorem stackValid_lt (st : PState) (hv : stackValid st = true) (p : Nat)
    (hp : some p ∈ st.parentStack) : p < st.nodes.length := by
  have h := List.all_eq_true.mp hv _ hp
  simpa using h

theorem nodeValid_lt (st : PState) (hnv : nodeValid st = true) (p : Nat)
    (hp : st.node = some p) : p < st.nodes.length := by
  unfold nodeValid at hnv
  rw [hp] at hnv
  simpa using hnv

theorem stepLine_name_eq (st : PState) (txt : String) (m : RegexMatch)
    (h1 : idxGtZero txt = true) (h2 : goHasPre "Current" txt = false)
    (h3 : regexSearch txt.data = some m) (h4 : m.kind = "Name") :
    stepLine st txt = nameStep st m.path m.value := by
  simp [stepLine, h1, h2, h3, h4]

/-! ### Claim theorems -/

/-- Claim C1: when the subprocess exits zero, `VBoxManageWithOutput`
reclassifies the result as a failure carrying the trimmed stderr whenever
that stderr matches the `VBoxManage([.a-z]+?): error:` banner, and otherwise
returns success with the trimmed stdout as the payload. -/
theorem vboxManage_zero_exit_classification (r : RunOutcome)
    (h : r.exit = ExitKind.success) :
    (bannerMatch (trimSpace r.stderr) = true →
       (vboxManageWithOutput r).2 =
         some (GoErr.vboxError ("VBoxManage error: " ++ trimSpace r.stderr))) ∧
    (bannerMatch (trimSpace r.stderr) = false →
       (vboxManageWithOutput r).2 = none ∧
       (vboxManageWithOutput r).1 = trimSpace r.stdout) := by
  constructor
  · intro hb
    unfold vboxManageWithOutput
    rw [h, hb]
    simp
  · intro hb
    rw [vbox_success_no_banner r h hb]
    exact ⟨rfl, rfl⟩

def rBanner : RunOutcome :=
  { stdout := "out payload", stderr := "  VBoxManage.exe: error: boom  ",
    exit := ExitKind.success }

def rClean : RunOutcome :=
  { stdout := "  payload  ", stderr := "all fine", exit := ExitKind.success }

/-- Witness for C1 at two concrete zero-exit runs: a banner-bearing stderr
becomes a failure, a clean stderr becomes a success with trimmed stdout. -/
theorem vboxManage_zero_exit_classification_witness :
    (vboxManageWithOutput rBanner).2 =
        some (GoErr.vboxError ("VBoxManage error: " ++ trimSpace rBanner.stderr)) ∧
    (vboxManageWithOutput rClean).2 = none ∧
    (vboxManageWithOutput rClean).1 = trimSpace rClean.stdout := by
  have h1 := (vboxManage_zero_exit_classification rBanner rfl).1 (by decide)
  have h2 := (vboxManage_zero_exit_classification rClean rfl).2 (by decide)
  exact ⟨h1, h2.1, h2.2⟩

def rStartFail : RunOutcome :=
  { stdout := "payload", stderr := "  tool stderr  ",
    exit := ExitKind.startErr "exec: executable file not found" }

/-- Claim C7 counterexample: on a failure to start, the returned error is the
start error itself — its message does not carry the trimmed stderr content
("tool stderr"), contradicting the claim that the fail-to-start case also
carries stderr as the message. -/
theorem vboxManage_start_fail_cex :
    (vboxManageWithOutput rStartFail).2 =
        some (GoErr.startError "exec: executable file not found") ∧
    goContains "exec: executable file not found" (trimSpace rStartFail.stderr) = false := by
  exact ⟨rfl, by decide⟩

/-- Claim C7 amended: a non-zero exit or a failure to start always yields a
failure, and the message carries the trimmed stderr only in the non-zero-exit
case; a failure to start keeps the start error's own message, with stderr not
consulted. -/
theorem vboxManage_failure_classification (r : RunOutcome)
    (h : r.exit ≠ ExitKind.success) :
    (∃ e, (vboxManageWithOutput r).2 = some e) ∧
    (r.exit = ExitKind.exitErr →
       (vboxManageWithOutput r).2 =
         some (GoErr.vboxError ("VBoxManage error: " ++ trimSpace r.stderr))) ∧
    (∀ msg, r.exit = ExitKind.startErr msg →
       (vboxManageWithOutput r).2 = some (GoErr.startError msg)) := by
  unfold vboxManageWithOutput
  cases hx : r.exit with
  | success => exact absurd hx h
  | exitErr =>
    refine ⟨⟨_, rfl⟩, fun _ => rfl, fun msg hm => ?_⟩
    simp at hm
  | startErr m =>
    refine ⟨⟨_, rfl⟩, fun he => ?_, fun msg hm => ?_⟩
    · simp at he
    · simp at hm
      subst hm
      rfl

def rExitFail : RunOutcome :=
  { stdout := "junk", stderr := " broken pipe \n", exit := ExitKind.exitErr }

/-- Witness for the amended C7 at a concrete non-zero-exit run and a concrete
failed-to-start run. -/
theorem vboxManage_failure_classification_witness :
    (vboxManageWithOutput rExitFail).2 =
        some (GoErr.vboxError ("VBoxManage error: " ++ trimSpace rExitFail.stderr)) ∧
    (vboxManageWithOutput rStartFail).2 =
        some (GoErr.startError "exec: executable file not found") := by
  have h1 := (vboxManage_failure_classification rExitFail (by decide)).2.1 rfl
  have h2 := (vboxManage_failure_classification rStartFail (by decide)).2.2
      "exec: executable file not found" rfl
  exact ⟨h1, h2⟩

/-- Claim C5: `Version` rejects any output containing `vboxdrv` as a setup
error before parsing; otherwise it returns the maximal leading `[.0-9]` run
(so the underscore release tag is discarded), and when no such run exists it
fails with a parse error whose message includes the output. -/
theorem version_resolution (stdout : String) :
    (goContains (trimSpace stdout) "vboxdrv" = true →
       versionFromOutput stdout =
         Except.error (VersionErr.setup
           ("VirtualBox is not properly setup: " ++ trimSpace stdout))) ∧
    (goContains (trimSpace stdout) "vboxdrv" = false →
       ((trimSpace stdout).data.takeWhile isVerChar ≠ [] →
          versionFromOutput stdout =
            Except.ok (String.mk ((trimSpace stdout).data.takeWhile isVerChar))) ∧
       ((trimSpace stdout).data.takeWhile isVerChar = [] →
          versionFromOutput stdout =
            Except.error (VersionErr.parseFailed ("No version found: " ++ trimSpace stdout)) ∧
          goContains ("No version found: " ++ trimSpace stdout) (trimSpace stdout) = true)) := by
  constructor
  · intro hc
    simp [versionFromOutput, hc]
  · intro hc
    constructor
    · intro hne
      cases htw : (trimSpace stdout).data.takeWhile isVerChar with
      | nil => exact absurd htw hne
      | cons c cs => simp [versionFromOutput, hc, htw]
    · intro hnil
      refine ⟨?_, ?_⟩
      · simp [versionFromOutput, hc, hnil]
      · unfold goContains
        apply decide_eq_true
        refine ⟨"No version found: ".data, [], ?_⟩
        rw [string_data_append]
        simp

/-- Witness for C5 at three concrete outputs: a release-candidate version, a
`vboxdrv`-marked output that also holds a parseable version, and an output
with no leading numeric run. -/
theorem version_resolution_witness :
    versionFromOutput "4.3.0_RC1" = Except.ok "4.3.0" ∧
    versionFromOutput "WARNING: vboxdrv kernel module missing 4.3.0" =
      Except.error (VersionErr.setup ("VirtualBox is not properly setup: " ++
        "WARNING: vboxdrv kernel module missing 4.3.0")) ∧
    versionFromOutput "no digits here" =
      Except.error (VersionErr.parseFailed ("No version found: " ++ "no digits here")) := by
  have h1 := ((version_resolution "4.3.0_RC1").2 (by decide)).1 (by decide)
  have h2 := (version_resolution "WARNING: vboxdrv kernel module missing 4.3.0").1 (by decide)
  have h3 := ((version_resolution "no digits here").2 (by decide)).2 (by decide)
  exact ⟨h1.trans rfl, h2.trans rfl, h3.1.trans rfl⟩

/-- Claim C6: `CreateSATAController` selects the port-count flag by comparing
the resolved version against 4.3: strictly below it uses `--sataportcount`,
at or above it uses `--portcount`, inside the otherwise fixed `storagectl`
command. -/
theorem sata_portcount_version_gate (version vmName name : String) (pc : Int)
    (segs : List Nat) (h : goVersionParse version = some segs) :
    (versionSegLT segs [4, 3] = true →
       createSATAControllerArgs version vmName name pc =
         Except.ok ["storagectl", vmName, "--name", name, "--add", "sata",
                    "--sataportcount", toString pc]) ∧
    (versionSegLT segs [4, 3] = false →
       createSATAControllerArgs version vmName name pc =
         Except.ok ["storagectl", vmName, "--name", name, "--add", "sata",
                    "--portcount", toString pc]) := by
  have h43 : goVersionParse "4.3" = some [4, 3] := by decide
  constructor
  · intro hlt
    simp [createSATAControllerArgs, h, h43, hlt]
  · intro hge
    simp [createSATAControllerArgs, h, h43, hge]

/-- Witness for C6 at the spec's three versions: 4.2.99 takes the pre-4.3
spelling, 4.3.0 and 5.1.2 take the post-4.3 spelling. -/
theorem sata_portcount_version_gate_witness :
    createSATAControllerArgs "4.2.99" "vm" "sata0" 2 =
      Except.ok ["storagectl", "vm", "--name", "sata0", "--add", "sata",
                 "--sataportcount", toString (2 : Int)] ∧
    createSATAControllerArgs "4.3.0" "vm" "sata0" 2 =
      Except.ok ["storagectl", "vm", "--name", "sata0", "--add", "sata",
                 "--portcount", toString (2 : Int)] ∧
    createSATAControllerArgs "5.1.2" "vm" "sata0" 2 =
      Except.ok ["storagectl", "vm", "--name", "sata0", "--add", "sata",
                 "--portcount", toString (2 : Int)] := by
  have h1 := (sata_portcount_version_gate "4.2.99" "vm" "sata0" 2 [4, 2, 99] (by decide)).1
      (by decide)
  have h2 := (sata_portcount_version_gate "4.3.0" "vm" "sata0" 2 [4, 3, 0] (by decide)).2
      (by decide)
  have h3 := (sata_portcount_version_gate "5.1.2" "vm" "sata0" 2 [5, 1, 2] (by decide)).2
      (by decide)
  exact ⟨h1, h2, h3⟩

/-- Claim C8: `IsRunning` answers true exactly when some line of the
`showvminfo --machinereadable` output, after trimming trailing carriage
returns, is exactly one of the three `VMState` lines for `running`,
`stopping` or `paused`. -/
theorem isRunning_state_mapping (world : List String → RunOutcome) (name : String)
    (h : (world ["showvminfo", name, "--machinereadable"]).exit = ExitKind.success) :
    isRunning world name = some true ↔
      ∃ line, line ∈ goSplitNL (world ["showvminfo", name, "--machinereadable"]).stdout ∧
        (goTrimRightCR line = "VMState=\"running\"" ∨
         goTrimRightCR line = "VMState=\"stopping\"" ∨
         goTrimRightCR line = "VMState=\"paused\"") := by
  unfold isRunning
  rw [h]
  simp [isRunningOutput, List.any_eq_true, or_assoc]

def world8 : List String → RunOutcome :=
  fun _ =>
    { stdout := "ostype=\"Linux\"\nVMState=\"paused\"\x0d\nmore=\"x\"",
      stderr := "", exit := ExitKind.success }

/-- Witness for C8 at a concrete `showvminfo` output whose `VMState` line
reports `paused` with a trailing carriage return. -/
theorem isRunning_state_mapping_witness : isRunning world8 "vm" = some true := by
  refine (isRunning_state_mapping world8 "vm" rfl).mpr ?_
  exact ⟨"VMState=\"paused\"\x0d", by decide, Or.inr (Or.inr (by decide))⟩

/-- Claim C4: when the listing command succeeds and its whole (trimmed)
content is the sentinel text, `LoadSnapshots` returns an absent tree and no
error — not an empty root node and not a failure. -/
theorem loadSnapshots_sentinel_absent_tree (world : List String → RunOutcome)
    (vmName : String) (h0 : vmName ≠ "")
    (h1 : (world ["snapshot", vmName, "list", "--machinereadable"]).exit = ExitKind.success)
    (h2 : bannerMatch
        (trimSpace (world ["snapshot", vmName, "list", "--machinereadable"]).stderr) = false)
    (h3 : trimSpace (world ["snapshot", vmName, "list", "--machinereadable"]).stdout =
        sentinelNoSnapshots) :
    loadSnapshots world vmName = Outcome.ok (none, []) := by
  unfold loadSnapshots
  rw [if_neg h0, vbox_success_no_banner _ h1 h2, h3]
  simp [parseSnapshotOutput]

def worldSentinel : List String → RunOutcome :=
  fun _ =>
    { stdout := "This machine does not have any snapshots", stderr := "",
      exit := ExitKind.success }

/-- Witness for C4 at a concrete world whose listing is exactly the
sentinel. -/
theorem loadSnapshots_sentinel_absent_tree_witness :
    loadSnapshots worldSentinel "vm" = Outcome.ok (none, []) :=
  loadSnapshots_sentinel_absent_tree worldSentinel "vm" (by decide) rfl (by decide) (by decide)

def worldNull : List String → RunOutcome :=
  fun _ => { stdout := "", stderr := "", exit := ExitKind.success }

/-- Claim C9: each snapshot operation, handed an empty VM name (or, for
`SetSnapshot` / `DeleteSnapshot`, a nil snapshot pointer), does not return a
validation error — it panics, an uncatchable abort of the process.  This
exhibits the divergence between the code and the claimed fail-fast-by-error
behaviour. -/
theorem snapshot_ops_validation_abort :
    loadSnapshots worldNull "" =
      Outcome.panicked (Abort.explicitPanic "Argument empty exception: vmName") ∧
    createSnapshot worldNull "" "snap" =
      Outcome.panicked (Abort.explicitPanic "Argument empty exception: vmname") ∧
    hasSnapshots worldNull "" =
      Outcome.panicked (Abort.explicitPanic "Argument empty exception: vmname") ∧
    getCurrentSnapshot (fun r _ => r) worldNull "" =
      Outcome.panicked (Abort.explicitPanic "Argument empty exception: vmname") ∧
    setSnapshot worldNull "" (some {}) =
      Outcome.panicked (Abort.explicitPanic "Argument empty exception: vmname") ∧
    deleteSnapshot worldNull "" (some {}) =
      Outcome.panicked (Abort.explicitPanic "Argument empty exception: vmname") ∧
    setSnapshot worldNull "vm" none =
      Outcome.panicked (Abort.explicitPanic "Argument null exception: sn") ∧
    deleteSnapshot worldNull "vm" none =
      Outcome.panicked (Abort.explicitPanic "Argument null exception: sn") :=
  ⟨rfl, rfl, rfl, rfl, rfl, rfl, rfl, rfl⟩

/-- Claim C10: a line that contains `=` at index 1 or later, does not start
with `Current`, and is not matched anywhere by the snapshot-record pattern
makes the parser index the nil match result and abort, whereas a line
without such a `=` is skipped with the state unchanged. -/
theorem loadSnapshots_unmatched_line_panics (st : PState) (txt : String)
    (h1 : idxGtZero txt = true) (h2 : goHasPre "Current" txt = false)
    (h3 : regexSearch txt.data = none) :
    stepLine st txt = Except.error SnapPanic.nilMatchIndex ∧
    (∀ u : String, idxGtZero u = false → stepLine st u = Except.ok st) := by
  constructor
  · simp [stepLine, h1, h2, h3]
  · intro u hu
    simp [stepLine, hu]

/-- Witness for C10: `SnapshotName-10="v"` (a tenth sibling: its path digit
`0` falls outside `[1-9]`) and the unknown key `SnapshotDescription-1="x"`
both abort the parser from the initial state, while a line without `=` is
skipped. -/
theorem loadSnapshots_unmatched_line_panics_witness :
    stepLine snapInit "SnapshotName-10=\"v\"" = Except.error SnapPanic.nilMatchIndex ∧
    stepLine snapInit "SnapshotDescription-1=\"x\"" = Except.error SnapPanic.nilMatchIndex ∧
    stepLine snapInit "no separator here" = Except.ok snapInit := by
  have h := loadSnapshots_unmatched_line_panics snapInit "SnapshotName-10=\"v\""
      (by decide) (by decide) (by decide)
  have h2 := loadSnapshots_unmatched_line_panics snapInit "SnapshotDescription-1=\"x\""
      (by decide) (by decide) (by decide)
  exact ⟨h.1, h2.1, h.2 "no separator here" (by decide)⟩

/-- Claim C3: on a Name record whose depth is strictly below the tracked
`currentDepth` (the dash count of `currentIndicator`), the parser performs
exactly `currentDepth - 1` pops — a formula independent of how many levels
the depth actually decreased — and then selects the top of the popped stack
as the new node's parent: the resulting state carries the popped stack, the
new node is appended to the children of its top when that top is a non-nil
pointer, and the parser aborts (the nil interface conversion of `Peek`)
exactly when the popped stack is empty.  `popN` pops one entry at a time,
popping an empty stack being a no-op as in the Go stack library. -/
theorem loadSnapshots_pop_rule (st : PState) (txt : String) (m : RegexMatch) (r : Nat)
    (h1 : idxGtZero txt = true) (h2 : goHasPre "Current" txt = false)
    (h3 : regexSearch txt.data = some m) (h4 : m.kind = "Name")
    (h5 : st.rootNode = some r)
    (h6 : countDashes m.path < countDashes st.currentIndicator)
    (hv : stackValid st = true) :
    (∀ st', stepLine st txt = Except.ok st' →
        st'.parentStack = popN (countDashes st.currentIndicator - 1) st.parentStack ∧
        (∀ p rest,
            popN (countDashes st.currentIndicator - 1) st.parentStack = some p :: rest →
            childrenAt st'.nodes p = childrenAt st.nodes p ++ [st.nodes.length])) ∧
    (stepLine st txt = Except.error SnapPanic.nilParentAssert ↔
        popN (countDashes st.currentIndicator - 1) st.parentStack = []) := by
  have hadj : adjStack st.currentIndicator st.parentStack st.node m.path =
      popN (countDashes st.currentIndicator - 1) st.parentStack := by
    unfold adjStack
    rw [if_neg (by omega), if_pos h6]
  rw [stepLine_name_eq st txt m h1 h2 h3 h4]
  unfold nameStep
  rw [h5, hadj]
  cases hpop : popN (countDashes st.currentIndicator - 1) st.parentStack with
  | nil => simp
  | cons parent rest =>
    constructor
    · intro st' heq
      cases heq
      refine ⟨rfl, ?_⟩
      intro p rest' hpr
      cases hpr
      have hlt : p < st.nodes.length := by
        refine stackValid_lt st hv p
          (popN_suffixMem (some p) (countDashes st.currentIndicator - 1) st.parentStack ?_)
        rw [hpop]
        exact List.mem_cons_self _ _
      simpa using childrenAt_updChild st.nodes { Name := m.value } p st.nodes.length hlt
    · constructor
      · intro heq
        cases heq
      · intro heq
        cases heq

def stW : PState :=
  { nodes := [{ Name := "r", Children := [1] }, { Name := "a", Children := [2] },
              { Name := "b" }],
    rootNode := some 0, currentIndicator := "-1-1",
    parentStack := [some 1, some 0], node := some 2 }

def stWafter : PState :=
  { nodes := [{ Name := "r", Children := [1, 3] }, { Name := "a", Children := [2] },
              { Name := "b" }, { Name := "c" }],
    rootNode := some 0, currentIndicator := "-1-1",
    parentStack := [some 0], node := some 3 }

/-- Witness for C3 at a concrete depth-2 state hit by a depth-1 record: one
pop happens and the root becomes the parent of the new node. -/
theorem loadSnapshots_pop_rule_witness :
    stepLine stW "SnapshotName-1=\"c\"" = Except.ok stWafter ∧
    stWafter.parentStack = popN (countDashes stW.currentIndicator - 1) stW.parentStack ∧
    childrenAt stWafter.nodes 0 = childrenAt stW.nodes 0 ++ [stW.nodes.length] := by
  have h := (loadSnapshots_pop_rule stW "SnapshotName-1=\"c\""
      { kind := "Name", path := "-1", leaf := "-1", value := "c" } 0
      (by decide) (by decide) (by decide) (by decide) rfl (by decide) (by decide)).1
      stWafter rfl
  exact ⟨rfl, h.1, h.2 0 [] (by decide)⟩

def exLines : List String :=
  ["SnapshotName=\"r\"",
   "SnapshotName-1=\"a\"",
   "SnapshotName-1-1=\"b\"",
   "SnapshotName-1=\"c\""]

/-- Claim C2 counterexample: after the listing whose final Name record
`SnapshotName-1="c"` has depth 1 (a depth decrease from 2), the parser's
tracked depth — the dash count of `currentIndicator` — is still 2, not the
record's depth 1, although the record did create a non-root node (the final
state's `node` is the fourth node, not the root).  `currentDepth = depth`
does not hold after every Name record. -/
theorem loadSnapshots_depth_tracking_cex :
    (runLines exLines).map (fun st => countDashes st.currentIndicator) = Except.ok 2 ∧
    (runLines exLines).map (fun st => st.node) = Except.ok (some 3) ∧
    (runLines exLines).map (fun st => st.rootNode) = Except.ok (some 0) ∧
    (regexSearch ("SnapshotName-1=\"c\"").data).map (fun m => countDashes m.path) =
      some 1 := by
  exact ⟨rfl, rfl, rfl, rfl⟩

/-- Claim C2 amended: after a Name record that creates a non-root node, the
new node is the current node and is appended to the children of the top of
the adjusted ancestor stack (aborting when that stack is empty), but
`currentIndicator` — hence `currentDepth` — is set to the record's path
indicator only when the record's depth strictly exceeds the previous
`currentDepth`; on an equal or decreasing depth it keeps its previous
value. -/
theorem loadSnapshots_name_step (st : PState) (txt : String) (m : RegexMatch) (r : Nat)
    (h1 : idxGtZero txt = true) (h2 : goHasPre "Current" txt = false)
    (h3 : regexSearch txt.data = some m) (h4 : m.kind = "Name")
    (h5 : st.rootNode = some r)
    (hv : stackValid st = true) (hnv : nodeValid st = true) :
    (∀ st', stepLine st txt = Except.ok st' →
        st'.node = some st.nodes.length ∧
        st'.currentIndicator =
          (if countDashes st.currentIndicator < countDashes m.path then m.path
           else st.currentIndicator) ∧
        st'.parentStack = adjStack st.currentIndicator st.parentStack st.node m.path ∧
        (∀ p rest,
            adjStack st.currentIndicator st.parentStack st.node m.path = some p :: rest →
            childrenAt st'.nodes p = childrenAt st.nodes p ++ [st.nodes.length])) ∧
    (stepLine st txt = Except.error SnapPanic.nilParentAssert ↔
        adjStack st.currentIndicator st.parentStack st.node m.path = []) := by
  rw [stepLine_name_eq st txt m h1 h2 h3 h4]
  unfold nameStep
  rw [h5]
  cases hstk : adjStack st.currentIndicator st.parentStack st.node m.path with
  | nil => simp
  | cons parent rest =>
    constructor
    · intro st' heq
      cases heq
      refine ⟨rfl, rfl, rfl, ?_⟩
      intro p rest' hpr
      cases hpr
      have hlt : p < st.nodes.length := by
        rcases adjStack_mem st.currentIndicator st.parentStack st.node m.path (some p)
            (by rw [hstk]; exact List.mem_cons_self _ _) with hq | hq
        · exact nodeValid_lt st hnv p hq.symm
        · exact stackValid_lt st hv p hq
      simpa using childrenAt_updChild st.nodes { Name := m.value } p st.nodes.length hlt
    · constructor
      · intro heq
        cases heq
      · intro heq
        cases heq

/-- Witness for the amended C2 at a concrete depth-2 state hit by a depth-1
record: the new node becomes current, the root adopts it, and the tracked
indicator keeps its old value `-1-1`. -/
theorem loadSnapshots_name_step_witness :
    stepLine stW "SnapshotName-1=\"c\"" = Except.ok stWafter ∧
    stWafter.node = some stW.nodes.length ∧
    stWafter.currentIndicator = stW.currentIndicator := by
  have h := (loadSnapshots_name_step stW "SnapshotName-1=\"c\""
      { kind := "Name", path := "-1", leaf := "-1", value := "c" } 0
      (by decide) (by decide) (by decide) (by decide) rfl (by decide) (by decide)).1
      stWafter rfl
  exact ⟨rfl, h.1, h.2.1.trans (by decide)⟩
